import Mathlib

/-!
# Verification of the `dc-cli` archived-content commands

A shallow embedding of the two command modules of this repository:

* `src/unnamed/part_000` — the `remove-archived-delivery-key [id]` command
  (namespace `DeliveryKey` below), and
* `src/src/commands/content-item/remove-archived-active-flag.ts` — the
  `remove-archived-active-flag [id]` command (namespace `ActiveFlag` below).

Remote SDK entities (`ContentItem`, repositories, folders) are embedded as
plain data; the remote API and the per-item mutation calls are embedded as
explicit call traces plus a failure oracle, so that the sequencing, logging
and counting logic of the two `processItems` loops is a pure function of its
inputs.  JavaScript truthiness of the option values (`string | string[] |
undefined`) is modelled explicitly.

Helper modules that the two command files import (`equalsOrRegex`,
`ArchiveLog`, `asyncQuestion`, `paginator`, `PublishQueue`) are part of this
repository but are not included in the source snapshot; they are modelled
from the spec where needed (see the doc comments on the corresponding
definitions), and the pattern matcher `equalsOrRegex` is kept as an explicit
function parameter so every theorem about the filters holds for an arbitrary
matcher.
-/

namespace DcCli

/-- A JavaScript `string | string[]` value, as yargs delivers repeatable
string options (`--name`, `--contentType`, `--repoId`, `--folderId`). -/
inductive StrArg
  | one (s : String)
  | many (l : List String)
deriving DecidableEq, Repr

/-- `Array.isArray(x) ? x : [x]` — the normalisation both command files apply
to `string | string[]` options. -/
def StrArg.toList : StrArg → List String
  | .one s => [s]
  | .many l => l

/-- JS truthiness of an optional string: `undefined` and `""` are falsy. -/
def jsTruthyStr : Option String → Bool
  | none => false
  | some s => s ≠ ""

/-- JS truthiness of a `string | string[] | undefined` option value.  Note an
array is always truthy in JavaScript, even when empty. -/
def jsTruthyArg : Option StrArg → Bool
  | none => false
  | some (.one s) => s ≠ ""
  | some (.many _) => true

/-- JS truthiness of an optional number: `undefined` and `0` are falsy.  Used
for `lastPublishedVersion`. -/
def jsTruthyNat : Option Nat → Bool
  | none => false
  | some n => n ≠ 0

/-- Template-literal rendering of a possibly-`undefined` string
(`` `${x}` `` prints `undefined` when `x` is absent). -/
def jsShow : Option String → String
  | none => "undefined"
  | some s => s

/-- Content-item status, from `dc-management-sdk-js`. -/
inductive Status
  | active
  | archived
  | deleted
deriving DecidableEq, Repr

/-- Template-literal rendering of a status value. -/
def Status.render : Status → String
  | .active => "ACTIVE"
  | .archived => "ARCHIVED"
  | .deleted => "DELETED"

/-- The slice of a remote `ContentItem` that the two commands read or write:
`id`, `label`, `body._meta.schema`, `body._meta.deliveryKey`, `body.active`,
`lastPublishedVersion` and `status`. -/
structure ContentItem where
  id : String
  label : Option String
  schema : String
  deliveryKey : Option String
  active : Bool
  lastPublishedVersion : Option Nat
  status : Status
deriving DecidableEq, Repr

/-- Modelled from the spec: an `ArchiveLog` line.  The log is "an ordered
sequence of typed lines (ACTION, COMMENT, WARN, ERROR)"; `warn`/`error`
"may carry an associated cause" (the thrown error, kept as its string
rendering). -/
inductive LogLine
  | action (name data : String)
  | comment (text : String)
  | warn (text cause : String)
  | error (text cause : String)
deriving DecidableEq, Repr

/-- One remote SDK call issued by a batch-mutator loop.  `update` records the
pushed local copy, so a trace shows exactly what state the update wrote. -/
inductive RemoteCall
  | unarchive (id : String)
  | update (id : String) (pushed : ContentItem)
  | archive (id : String)
  | publish (id : String)
deriving DecidableEq, Repr

/-- Result shape of `filterContentItems` / `getContentItems` in both files. -/
structure FilterResult where
  contentItems : List ContentItem
  missingContent : Bool
deriving DecidableEq, Repr

/-- A console entry: an ordinary `console.log` message, or the
`console.log(argv, process.env)` dump that the active-flag handler performs
(the environment is modelled as an association list). -/
inductive ConsoleEntry (Argv : Type)
  | msg (s : String)
  | dump (argv : Argv) (env : List (String × String))
deriving DecidableEq, Repr

/-- The fields of the parsed argv record that either handler destructures. -/
structure ArgvRecord where
  id : Option String
  logFile : Option String
  force : Bool
  silent : Bool
  ignoreError : Bool
  hubId : String
  revertLog : Option String
  repoId : Option StrArg
  folderId : Option StrArg
  name : Option StrArg
  contentType : Option StrArg
deriving DecidableEq, Repr

/-- The argument record of `processItems` in both files (the TS parameter
object; `missingContent` is accepted but never read by either variant). -/
structure ProcArgs where
  contentItems : List ContentItem
  force : Bool
  silent : Bool
  logFile : Option String
  allContent : Bool
  missingContent : Bool
  ignoreError : Bool
deriving DecidableEq, Repr

/-- The observable outcome of one `processItems` run: console output, the
confirmation question (if one was asked), the `ArchiveLog` title and lines,
the log file path written (if any), the success counter, the remote call
trace, and the final remote state of every input item. -/
structure RunResult where
  console : List (ConsoleEntry ArgvRecord)
  promptShown : Option String
  logTitle : Option String
  logLines : List LogLine
  logWritten : Option String
  successCount : Nat
  calls : List RemoteCall
  remotes : List ContentItem
deriving DecidableEq, Repr

/-- JS `String.prototype.replace` with a plain-string pattern: replaces the
first occurrence only.  Used for the `<DATE>` token in the log file path. -/
def replaceFirst (s pat repl : String) : String :=
  match s.splitOn pat with
  | [] => s
  | [_] => s
  | h :: t => h ++ repl ++ String.intercalate pat t

/-- `Promise.all` over fallible fetches: succeeds with all results, or fails
as soon as any fetch fails. -/
def exceptAll {α β : Type} (f : α → Except String β) : List α → Except String (List β)
  | [] => .ok []
  | a :: l =>
    match f a with
    | .error e => .error e
    | .ok b =>
      match exceptAll f l with
      | .error e => .error e
      | .ok l' => .ok (b :: l')

/-- Modelled from the spec: a content repository as seen by the locator.  The
repository's `related.contentItems.list` capability, paginated with
`{ status: ARCHIVED }`, yields its archived items (or a fetch error) —
"Enumeration always requests only items with ARCHIVED status". -/
structure Repo where
  archivedItems : Except String (List ContentItem)

/-- Modelled from the spec: a folder, with its paginated archived-item
listing. -/
structure Folder where
  archivedItems : Except String (List ContentItem)

/-- Modelled from the spec: the hub, whose `related.contentRepositories.list`
capability enumerates every content repository. -/
structure Hub where
  listRepositories : Except String (List Repo)

/-- Modelled from the spec: the remote client (`dynamicContentClientFactory`
result), restricted to the operations the locator uses.  Every fetch may
fail. -/
structure Client where
  getContentItem : String → Except String ContentItem
  getHub : String → Except String Hub
  getRepository : String → Except String Repo
  getFolder : String → Except String Folder

/-- The enumeration stage of `getContentItems` (identical in both command
files), for the `id == null` case: fetch the hub, then the repositories
(all of them, even when a folder filter will shadow them), then the folders,
then list archived items from the folders if a folder filter was given, else
from the repositories.  Any failure is propagated to the caller's catch. -/
def fetchAll (client : Client) (hubId : String) (repoId folderId : Option StrArg) :
    Except String (List ContentItem) :=
  match client.getHub hubId with
  | .error e => .error e
  | .ok hub =>
    let repoIds := (Option.map StrArg.toList repoId).getD []
    let folderIds := (Option.map StrArg.toList folderId).getD []
    match (match repoId with
           | some _ => exceptAll client.getRepository repoIds
           | none => hub.listRepositories) with
    | .error e => .error e
    | .ok contentRepositories =>
      match (match folderId with
             | some _ => exceptAll client.getFolder folderIds
             | none => .ok []) with
      | .error e => .error e
      | .ok folders =>
        match folderId with
        | some _ =>
          match exceptAll (fun (f : Folder) => f.archivedItems) folders with
          | .error e => .error e
          | .ok itemss => .ok itemss.flatten
        | none =>
          match exceptAll (fun (r : Repo) => r.archivedItems) contentRepositories with
          | .error e => .error e
          | .ok itemss => .ok itemss.flatten

namespace DeliveryKey

/-- `filterContentItems` of the delivery-key command: keep items whose
`body._meta.deliveryKey` is truthy, then apply the name filter if present,
else the content-type filter if present.  `equalsOrRegex` (imported from
`common/filter/filter`, not part of the snapshot) is passed in as a
parameter, so all theorems hold for any matcher.  The catch branch of the
source is unreachable in this pure embedding. -/
def filterContentItems (equalsOrRegex : String → String → Bool)
    (name contentType : Option StrArg) (contentItems : List ContentItem) :
    FilterResult :=
  let contentItemsWithDeliveryKey :=
    contentItems.filter (fun item => jsTruthyStr item.deliveryKey)
  match name with
  | some n =>
    { contentItems :=
        contentItemsWithDeliveryKey.filter (fun item =>
          (StrArg.toList n).any (fun id => equalsOrRegex (item.label.getD "") id)),
      missingContent := false }
  | none =>
    match contentType with
    | some ct =>
      { contentItems :=
          contentItemsWithDeliveryKey.filter (fun item =>
            (StrArg.toList ct).any (fun id => equalsOrRegex item.schema id)),
        missingContent := false }
    | none =>
      { contentItems := contentItemsWithDeliveryKey, missingContent := false }

/-- `getContentItems` of the delivery-key command: the `id != null` branch
fetches exactly that item and returns it **without** running
`filterContentItems`; otherwise items are enumerated and filtered.  Any
fetch failure is caught and degrades to an empty result. -/
def getContentItems (client : Client) (hubId : String) (id : Option String)
    (repoId folderId : Option StrArg) (equalsOrRegex : String → String → Bool)
    (name contentType : Option StrArg) : FilterResult :=
  match id with
  | some i =>
    match client.getContentItem i with
    | .ok item => { contentItems := [item], missingContent := false }
    | .error _ => { contentItems := [], missingContent := false }
  | none =>
    match fetchAll client hubId repoId folderId with
    | .ok contentItems => filterContentItems equalsOrRegex name contentType contentItems
    | .error _ => { contentItems := [], missingContent := false }

/-- The step of the delivery-key mutation loop at which an iteration's thrown
failure occurred: the `unarchive`, `update` or `archive` remote call. -/
inductive FailStep
  | unarchive
  | update
  | archive
deriving DecidableEq, Repr

/-- Modelled from the spec: the effect oracles of one run of the delivery-key
command — the `asyncQuestion` answer, the `Date.now()` timestamp, and, for
each loop index, whether the iteration's remote mutation throws (at which
step, and the thrown error's string rendering). -/
structure Env where
  answerYes : Bool
  timestamp : String
  failAt : Nat → Option (FailStep × String)
  processEnv : List (String × String)

/-- Outcome of one iteration of the delivery-key loop body on `item`:

    contentItems[i] = await contentItems[i].related.unarchive();
    contentItems[i].body._meta.deliveryKey = null;
    contentItems[i] = await contentItems[i].related.update(contentItems[i]);
    await contentItems[i].related.archive();

`remote` is the item's remote state afterwards (note the `archive()` result
is discarded, so the local copy keeps ACTIVE status even on full success);
`localItem` is `contentItems[i]` after the iteration; `calls` the attempted
remote calls in order; `err` the thrown error, if any. -/
structure ItemStep where
  remote : ContentItem
  localItem : ContentItem
  calls : List RemoteCall
  err : Option String
deriving DecidableEq, Repr

/-- The per-item transition of the delivery-key loop, given the iteration's
failure-oracle value.  On an `unarchive` failure nothing has changed; on an
`update` failure the remote item is ACTIVE with its delivery key intact while
the local copy has already cleared the key; on an `archive` failure the
remote item is left ACTIVE with the key cleared (the spec's documented
partial-failure state); on success the remote item is re-archived with the
key cleared. -/
def processOne (item : ContentItem) : Option (FailStep × String) → ItemStep
  | some (.unarchive, e) =>
    { remote := item, localItem := item, calls := [.unarchive item.id], err := some e }
  | some (.update, e) =>
    { remote := { item with status := .active },
      localItem := { item with status := .active, deliveryKey := none },
      calls := [.unarchive item.id,
                .update item.id { item with status := .active, deliveryKey := none }],
      err := some e }
  | some (.archive, e) =>
    { remote := { item with status := .active, deliveryKey := none },
      localItem := { item with status := .active, deliveryKey := none },
      calls := [.unarchive item.id,
                .update item.id { item with status := .active, deliveryKey := none },
                .archive item.id],
      err := some e }
  | none =>
    { remote := { item with status := .archived, deliveryKey := none },
      localItem := { item with status := .active, deliveryKey := none },
      calls := [.unarchive item.id,
                .update item.id { item with status := .active, deliveryKey := none },
                .archive item.id],
      err := none }

/-- The successful-iteration ACTION line:
`log.addAction('REMOVED-ARCHIVED-DELIVERY-KEY', id + ":" + deliveryKey + "\n")`
with the delivery key captured before the mutation. -/
def actionLine (item : ContentItem) : LogLine :=
  .action "REMOVED-ARCHIVED-DELIVERY-KEY" (item.id ++ ":" ++ jsShow item.deliveryKey ++ "\n")

/-- The log lines one iteration of the delivery-key loop appends: the ACTION
line on success; on failure the two COMMENT lines followed by a WARN
(`ignoreError`) or ERROR line whose message interpolates the captured
delivery key and the current local copy's label, id and status. -/
def itemLog (item : ContentItem) (f : Option (FailStep × String)) (ignoreError : Bool) :
    List LogLine :=
  match f with
  | none => [actionLine item]
  | some (st, e) =>
    let loc := (processOne item (some (st, e))).localItem
    let msg := "Failed to remove delivery key " ++ jsShow item.deliveryKey ++
      " and re-archive " ++ jsShow loc.label ++ " (" ++ loc.id ++ "), current status is " ++
      loc.status.render ++ ", " ++ (if ignoreError then "continuing." else "aborting.")
    [.comment ("REMOVED-ARCHIVED-DELIVERY-KEY FAILED: " ++ loc.id ++ ":" ++
       jsShow item.deliveryKey),
     .comment e,
     if ignoreError then .warn msg e else .error msg e]

/-- The delivery-key mutation loop, starting at index `i`: returns the log
lines, the success counter, the remote-call trace, and the final remote
state of each input item in order.  On a failure with `ignoreError` unset
the loop `break`s: the remaining items are untouched. -/
def processLoop (ignoreError : Bool) (failAt : Nat → Option (FailStep × String)) :
    Nat → List ContentItem → List LogLine × Nat × List RemoteCall × List ContentItem
  | _, [] => ([], 0, [], [])
  | i, item :: rest =>
    let st := processOne item (failAt i)
    let lines := itemLog item (failAt i) ignoreError
    match failAt i with
    | none =>
      let r := processLoop ignoreError failAt (i + 1) rest
      (lines ++ r.1, r.2.1 + 1, st.calls ++ r.2.2.1, st.remote :: r.2.2.2)
    | some _ =>
      if ignoreError then
        let r := processLoop ignoreError failAt (i + 1) rest
        (lines ++ r.1, r.2.1, st.calls ++ r.2.2.1, st.remote :: r.2.2.2)
      else
        (lines, 0, st.calls, st.remote :: rest)

/-- `processItems` of the delivery-key command: empty-set short-circuit,
candidate listing, confirmation gate (skipped under `force`; `asyncQuestion`
modelled by the `answerYes` oracle), the sequential mutation loop, the
conditional log-file write (`!silent && logFile`, with `<DATE>` substituted
by the run timestamp), and the final summary message. -/
def processItems (env : Env) (args : ProcArgs) : RunResult :=
  if args.contentItems.length = 0 then
    { console := [.msg "No delivery keys found in archived items."],
      promptShown := none, logTitle := none, logLines := [], logWritten := none,
      successCount := 0, calls := [], remotes := args.contentItems }
  else
    let listing : List (ConsoleEntry ArgvRecord) :=
      .msg "The following content items in the archive will have the delivery keys removed:"
      :: args.contentItems.map (fun ci => .msg (" " ++ jsShow ci.label ++ " (" ++ ci.id ++ ")"))
      ++ [.msg ("Total: " ++ toString args.contentItems.length)]
    let question :=
      if args.allContent then
        "Providing no ID or filter will remove delivery keys from all archived content-items! Are you sure you want to do this? (y/n)\n"
      else
        "Are you sure you want to remove delivery keys from these archived content-items? (y/n)\n"
    if !args.force && !env.answerYes then
      { console := listing, promptShown := some question, logTitle := none,
        logLines := [], logWritten := none, successCount := 0, calls := [],
        remotes := args.contentItems }
    else
      let r := processLoop args.ignoreError env.failAt 0 args.contentItems
      { console := listing ++
          [.msg ("Remove archived delivery key from " ++ toString r.2.1 ++ " content items.")],
        promptShown := if args.force then none else some question,
        logTitle := some ("Content Items Remove Archived Delivery Key Log - " ++
          env.timestamp ++ "\n"),
        logLines := r.1,
        logWritten :=
          if !args.silent && jsTruthyStr args.logFile then
            some (replaceFirst (args.logFile.getD "") "<DATE>" env.timestamp)
          else none,
        successCount := r.2.1, calls := r.2.2.1, remotes := r.2.2.2 }

/-- `handler` of the delivery-key command: the `repoId && id` warning, the
`id && name` early return, the `repoId && folderId` warning, the
`allContent` notice, then `getContentItems` followed by `processItems`.
`located`/`run` are `none` exactly when the handler returned before reaching
the corresponding stage. -/
def handler (client : Client) (equalsOrRegex : String → String → Bool) (env : Env)
    (argv : ArgvRecord) :
    List (ConsoleEntry ArgvRecord) × Option FilterResult × Option RunResult :=
  let allContent := !jsTruthyStr argv.id && !jsTruthyArg argv.name &&
    !jsTruthyArg argv.contentType && !jsTruthyStr argv.revertLog &&
    !jsTruthyArg argv.folderId && !jsTruthyArg argv.repoId
  let c1 : List (ConsoleEntry ArgvRecord) :=
    if jsTruthyArg argv.repoId && jsTruthyStr argv.id then
      [.msg "ID of content item is specified, ignoring repository ID"]
    else []
  if jsTruthyStr argv.id && jsTruthyArg argv.name then
    (c1 ++ [.msg "Please specify either a item name or an ID - not both."], none, none)
  else
    let c2 : List (ConsoleEntry ArgvRecord) :=
      if jsTruthyArg argv.repoId && jsTruthyArg argv.folderId then
        [.msg "Folder is specified, ignoring repository ID"]
      else []
    let c3 : List (ConsoleEntry ArgvRecord) :=
      if allContent then
        [.msg "No filter was given, removing delivery keys on all archived content"]
      else []
    let located := getContentItems client argv.hubId argv.id argv.repoId argv.folderId
      equalsOrRegex argv.name argv.contentType
    let run := processItems env
      { contentItems := located.contentItems, force := argv.force, silent := argv.silent,
        logFile := argv.logFile, allContent := allContent,
        missingContent := located.missingContent, ignoreError := argv.ignoreError }
    (c1 ++ c2 ++ c3 ++ run.console, some located, some run)

end DeliveryKey

namespace ActiveFlag

/-- `filterContentItems` of the active-flag command: keep items with a truthy
`body.active` and a truthy `lastPublishedVersion`, then the same name /
content-type precedence as the delivery-key variant. -/
def filterContentItems (equalsOrRegex : String → String → Bool)
    (name contentType : Option StrArg) (contentItems : List ContentItem) :
    FilterResult :=
  let contentItemsWithActive :=
    contentItems.filter (fun item => item.active && jsTruthyNat item.lastPublishedVersion)
  match name with
  | some n =>
    { contentItems :=
        contentItemsWithActive.filter (fun item =>
          (StrArg.toList n).any (fun id => equalsOrRegex (item.label.getD "") id)),
      missingContent := false }
  | none =>
    match contentType with
    | some ct =>
      { contentItems :=
          contentItemsWithActive.filter (fun item =>
            (StrArg.toList ct).any (fun id => equalsOrRegex item.schema id)),
        missingContent := false }
    | none =>
      { contentItems := contentItemsWithActive, missingContent := false }

/-- `getContentItems` of the active-flag command — verbatim the same shape as
the delivery-key variant, with this file's `filterContentItems`. -/
def getContentItems (client : Client) (hubId : String) (id : Option String)
    (repoId folderId : Option StrArg) (equalsOrRegex : String → String → Bool)
    (name contentType : Option StrArg) : FilterResult :=
  match id with
  | some i =>
    match client.getContentItem i with
    | .ok item => { contentItems := [item], missingContent := false }
    | .error _ => { contentItems := [], missingContent := false }
  | none =>
    match fetchAll client hubId repoId folderId with
    | .ok contentItems => filterContentItems equalsOrRegex name contentType contentItems
    | .error _ => { contentItems := [], missingContent := false }

/-- Modelled from the spec: the effect oracles of one run of the active-flag
command — the `asyncQuestion` answer, the `Date.now()` timestamp, for each
loop index whether `pubQueue.publish` throws (with the error's string
rendering), and the ambient `process.env` that the handler dumps. -/
structure Env where
  answerYes : Bool
  timestamp : String
  pubFail : Nat → Option String
  processEnv : List (String × String)

/-- The COMMENT line the active-flag loop's inner `try`/`catch` appends for
one iteration: a started-publish note, or — when `pubQueue.publish` threw —
a failed-to-initiate note.  The failure never escapes this inner handler. -/
def pubLine (item : ContentItem) : Option String → LogLine
  | none => .comment ("Started publish for " ++ jsShow item.label ++ ".")
  | some e => .comment ("Failed to initiate publish for " ++ jsShow item.label ++ ": " ++ e)

/-- The unconditional ACTION line of the active-flag loop:
`log.addAction('REMOVED-ARCHIVED-ACTIVE-FLAG', id + "\n")`. -/
def actionLine (item : ContentItem) : LogLine :=
  .action "REMOVED-ARCHIVED-ACTIVE-FLAG" (item.id ++ "\n")

/-- The active-flag mutation loop.  The unarchive / clear-flag / update /
re-archive statements of the source are commented out, so each iteration
only awaits `pubQueue.publish` inside an inner `try`/`catch` (which records
the outcome as a COMMENT), then appends the ACTION line and increments the
success counter.  The outer `catch` (with its WARN/ERROR and `break`) is
unreachable: the only awaited call is covered by the inner handler, and the
remaining statements (`log.addComment`, `log.addAction`, property reads) do
not throw.  No iteration changes any item's remote state. -/
def processLoop (pubFail : Nat → Option String) :
    Nat → List ContentItem → List LogLine × Nat × List RemoteCall × List ContentItem
  | _, [] => ([], 0, [], [])
  | i, item :: rest =>
    let r := processLoop pubFail (i + 1) rest
    (pubLine item (pubFail i) :: actionLine item :: r.1,
     r.2.1 + 1,
     .publish item.id :: r.2.2.1,
     item :: r.2.2.2)

/-- `processItems` of the active-flag command: same gate structure as the
delivery-key variant (with the active-flag message texts), then the
publish-only loop.  The `argv` parameter is consumed only by the
`PublishQueue` constructor in the source and has no further observable
effect here; `args.ignoreError` is read only by the unreachable outer
`catch`. -/
def processItems (env : Env) (argv : ArgvRecord) (args : ProcArgs) : RunResult :=
  if args.contentItems.length = 0 then
    { console := [.msg "No active flags found in archived items."],
      promptShown := none, logTitle := none, logLines := [], logWritten := none,
      successCount := 0, calls := [], remotes := args.contentItems }
  else
    let listing : List (ConsoleEntry ArgvRecord) :=
      .msg "The following content items in the archive will have the active flags removed:"
      :: args.contentItems.map (fun ci => .msg (" " ++ jsShow ci.label ++ " (" ++ ci.id ++ ")"))
      ++ [.msg ("Total: " ++ toString args.contentItems.length)]
    let question :=
      if args.allContent then
        "Providing no ID or filter will remove active flags from all archived content-items! Are you sure you want to do this? (y/n)\n"
      else
        "Are you sure you want to remove active flags from these archived content-items? (y/n)\n"
    if !args.force && !env.answerYes then
      { console := listing, promptShown := some question, logTitle := none,
        logLines := [], logWritten := none, successCount := 0, calls := [],
        remotes := args.contentItems }
    else
      let r := processLoop env.pubFail 0 args.contentItems
      { console := listing ++
          [.msg ("Remove archived active flag from " ++ toString r.2.1 ++ " content items.")],
        promptShown := if args.force then none else some question,
        logTitle := some ("Content Items Remove Archived Active Flag Log - " ++
          env.timestamp ++ "\n"),
        logLines := r.1,
        logWritten :=
          if !args.silent && jsTruthyStr args.logFile then
            some (replaceFirst (args.logFile.getD "") "<DATE>" env.timestamp)
          else none,
        successCount := r.2.1, calls := r.2.2.1, remotes := r.2.2.2 }

/-- The body of the active-flag `handler` after its opening
`console.log(argv, process.env)` statement: identical control flow to the
delivery-key handler, with the active-flag messages, and `argv` forwarded to
`processItems`. -/
def handlerBody (client : Client) (equalsOrRegex : String → String → Bool) (env : Env)
    (argv : ArgvRecord) :
    List (ConsoleEntry ArgvRecord) × Option FilterResult × Option RunResult :=
  let allContent := !jsTruthyStr argv.id && !jsTruthyArg argv.name &&
    !jsTruthyArg argv.contentType && !jsTruthyStr argv.revertLog &&
    !jsTruthyArg argv.folderId && !jsTruthyArg argv.repoId
  let c1 : List (ConsoleEntry ArgvRecord) :=
    if jsTruthyArg argv.repoId && jsTruthyStr argv.id then
      [.msg "ID of content item is specified, ignoring repository ID"]
    else []
  if jsTruthyStr argv.id && jsTruthyArg argv.name then
    (c1 ++ [.msg "Please specify either a item name or an ID - not both."], none, none)
  else
    let c2 : List (ConsoleEntry ArgvRecord) :=
      if jsTruthyArg argv.repoId && jsTruthyArg argv.folderId then
        [.msg "Folder is specified, ignoring repository ID"]
      else []
    let c3 : List (ConsoleEntry ArgvRecord) :=
      if allContent then
        [.msg "No filter was given, removing active flags on all archived content"]
      else []
    let located := getContentItems client argv.hubId argv.id argv.repoId argv.folderId
      equalsOrRegex argv.name argv.contentType
    let run := processItems env argv
      { contentItems := located.contentItems, force := argv.force, silent := argv.silent,
        logFile := argv.logFile, allContent := allContent,
        missingContent := located.missingContent, ignoreError := argv.ignoreError }
    (c1 ++ c2 ++ c3 ++ run.console, some located, some run)

/-- `handler` of the active-flag command.  Its first statement is
`console.log(argv, process.env)` — the full parsed argv record and the whole
process environment are dumped to the console before any other work. -/
def handler (client : Client) (equalsOrRegex : String → String → Bool) (env : Env)
    (argv : ArgvRecord) :
    List (ConsoleEntry ArgvRecord) × Option FilterResult × Option RunResult :=
  let r := handlerBody client equalsOrRegex env argv
  (.dump argv env.processEnv :: r.1, r.2.1, r.2.2)

end ActiveFlag

/-! ## Helper lemmas -/

/-- Every item selected by the delivery-key `filterContentItems` carries a
truthy delivery key, whatever the matcher and patterns. -/
theorem DeliveryKey.mem_filter_deliveryKey (equalsOrRegex : String → String → Bool)
    (name contentType : Option StrArg) (contentItems : List ContentItem)
    (item : ContentItem)
    (h : item ∈ (DeliveryKey.filterContentItems equalsOrRegex name contentType
      contentItems).contentItems) :
    jsTruthyStr item.deliveryKey = true := by
  unfold DeliveryKey.filterContentItems at h
  rcases name with _ | n
  · rcases contentType with _ | ct
    · simp only [List.mem_filter] at h
      exact h.2
    · simp only [List.mem_filter] at h
      exact h.1.2
  · simp only [List.mem_filter] at h
    exact h.1.2

/-- Every item selected by the active-flag `filterContentItems` has a truthy
active flag and a truthy `lastPublishedVersion`. -/
theorem ActiveFlag.mem_filter_active (equalsOrRegex : String → String → Bool)
    (name contentType : Option StrArg) (contentItems : List ContentItem)
    (item : ContentItem)
    (h : item ∈ (ActiveFlag.filterContentItems equalsOrRegex name contentType
      contentItems).contentItems) :
    (item.active && jsTruthyNat item.lastPublishedVersion) = true := by
  unfold ActiveFlag.filterContentItems at h
  rcases name with _ | n
  · rcases contentType with _ | ct
    · simp only [List.mem_filter] at h
      exact h.2
    · simp only [List.mem_filter] at h
      exact h.1.2
  · simp only [List.mem_filter] at h
    exact h.1.2

/-- When no item ID is supplied, the delivery-key locator's selection passes
through `filterContentItems`, so every selected item has a truthy delivery
key (the fetch-failure path yields the empty selection). -/
theorem DeliveryKey.mem_getContentItems_noId_deliveryKey (client : Client) (hubId : String)
    (repoId folderId : Option StrArg) (equalsOrRegex : String → String → Bool)
    (name contentType : Option StrArg) (item : ContentItem)
    (h : item ∈ (DeliveryKey.getContentItems client hubId none repoId folderId
      equalsOrRegex name contentType).contentItems) :
    jsTruthyStr item.deliveryKey = true := by
  unfold DeliveryKey.getContentItems at h
  dsimp only at h
  split at h
  · exact DeliveryKey.mem_filter_deliveryKey equalsOrRegex name contentType _ item h
  · simp at h

/-- When no item ID is supplied, every item the active-flag locator selects
has a truthy active flag and a truthy `lastPublishedVersion`. -/
theorem ActiveFlag.mem_getContentItems_noId_active (client : Client) (hubId : String)
    (repoId folderId : Option StrArg) (equalsOrRegex : String → String → Bool)
    (name contentType : Option StrArg) (item : ContentItem)
    (h : item ∈ (ActiveFlag.getContentItems client hubId none repoId folderId
      equalsOrRegex name contentType).contentItems) :
    (item.active && jsTruthyNat item.lastPublishedVersion) = true := by
  unfold ActiveFlag.getContentItems at h
  dsimp only at h
  split at h
  · exact ActiveFlag.mem_filter_active equalsOrRegex name contentType _ item h
  · simp at h

/-- The active-flag loop increments the success counter once per item,
whatever the publish-failure oracle says. -/
theorem ActiveFlag.processLoop_count (pubFail : Nat → Option String) :
    ∀ (i : Nat) (items : List ContentItem),
      (ActiveFlag.processLoop pubFail i items).2.1 = items.length := by
  intro i items
  induction items generalizing i with
  | nil => rfl
  | cons item rest ih => simp [ActiveFlag.processLoop, ih]

/-- The active-flag loop issues exactly one `publish` call per item, and no
other remote call. -/
theorem ActiveFlag.processLoop_calls (pubFail : Nat → Option String) :
    ∀ (i : Nat) (items : List ContentItem),
      (ActiveFlag.processLoop pubFail i items).2.2.1 =
        items.map (fun it => RemoteCall.publish it.id) := by
  intro i items
  induction items generalizing i with
  | nil => rfl
  | cons item rest ih => simp [ActiveFlag.processLoop, ih]

/-- The active-flag loop leaves every item's remote state untouched. -/
theorem ActiveFlag.processLoop_remotes (pubFail : Nat → Option String) :
    ∀ (i : Nat) (items : List ContentItem),
      (ActiveFlag.processLoop pubFail i items).2.2.2 = items := by
  intro i items
  induction items generalizing i with
  | nil => rfl
  | cons item rest ih => simp [ActiveFlag.processLoop, ih]

/-- For every item of the active-flag loop, the log receives the publish
COMMENT line (started, or failed-to-initiate) and the unconditional ACTION
line. -/
theorem ActiveFlag.processLoop_log_mem (pubFail : Nat → Option String) :
    ∀ (items : List ContentItem) (i j : Nat) (item : ContentItem),
      items.get? j = some item →
      ActiveFlag.pubLine item (pubFail (i + j)) ∈ (ActiveFlag.processLoop pubFail i items).1 ∧
      ActiveFlag.actionLine item ∈ (ActiveFlag.processLoop pubFail i items).1 := by
  intro items
  induction items with
  | nil => intro i j item h; simp at h
  | cons it rest ih =>
    intro i j item h
    cases j with
    | zero =>
      simp only [List.get?_cons_zero, Option.some.injEq] at h
      subst h
      constructor
      · simp [ActiveFlag.processLoop]
      · simp [ActiveFlag.processLoop]
    | succ j' =>
      simp only [List.get?_cons_succ] at h
      have hj : i + (j' + 1) = (i + 1) + j' := by omega
      rw [hj]
      have := ih (i + 1) j' item h
      constructor
      · simp [ActiveFlag.processLoop]
        exact Or.inr (Or.inr this.1)
      · simp [ActiveFlag.processLoop]
        exact Or.inr (Or.inr this.2)

/-- In the delivery-key loop, an item whose iteration's mutation does not
throw either keeps its original remote state (it was never reached, because
an earlier item aborted the run) or ends re-archived with its delivery key
cleared. -/
theorem DeliveryKey.processLoop_remotes_of_success (ig : Bool)
    (f : Nat → Option (FailStep × String)) :
    ∀ (items : List ContentItem) (i j : Nat) (item : ContentItem),
      items.get? j = some item → f (i + j) = none →
      (DeliveryKey.processLoop ig f i items).2.2.2.get? j = some item ∨
      (DeliveryKey.processLoop ig f i items).2.2.2.get? j =
        some { item with status := Status.archived, deliveryKey := none } := by
  intro items
  induction items with
  | nil => intro i j item h; simp at h
  | cons it rest ih =>
    intro i j item h hf
    cases j with
    | zero =>
      simp only [List.get?_cons_zero, Option.some.injEq] at h
      subst h
      rw [Nat.add_zero] at hf
      right
      simp [DeliveryKey.processLoop, hf, DeliveryKey.processOne]
    | succ j' =>
      simp only [List.get?_cons_succ] at h
      have hf' : f ((i + 1) + j') = none := by
        rw [show (i + 1) + j' = i + (j' + 1) by omega]; exact hf
      rcases hfi : f i with _ | p
      · have := ih (i + 1) j' item h hf'
        simpa [DeliveryKey.processLoop, hfi] using this
      · rcases Bool.eq_false_or_eq_true ig with hig | hig
        · have := ih (i + 1) j' item h hf'
          simpa [DeliveryKey.processLoop, hfi, hig] using this
        · left
          simp [DeliveryKey.processLoop, hfi, hig]
          simpa using h

/-- When no iteration fails, the delivery-key loop's remote-call trace is,
item by item in input order: `unarchive`, then `update` pushing the local
copy with the delivery key cleared, then `archive`. -/
theorem DeliveryKey.processLoop_calls_all_ok (ig : Bool)
    (f : Nat → Option (FailStep × String)) (hall : ∀ j, f j = none) :
    ∀ (i : Nat) (items : List ContentItem),
      (DeliveryKey.processLoop ig f i items).2.2.1 =
        (items.map (fun it =>
          [RemoteCall.unarchive it.id,
           RemoteCall.update it.id { it with status := Status.active, deliveryKey := none },
           RemoteCall.archive it.id])).flatten := by
  intro i items
  induction items generalizing i with
  | nil => rfl
  | cons it rest ih =>
    simp [DeliveryKey.processLoop, hall i, DeliveryKey.processOne, ih]

/-! ## Claims -/

/-- C3, counterexample: the claim says no item lacking the target field ever
reaches the final selection, *regardless of whether the items were located
by ID* — but the `id != null` branch of `getContentItems` returns the
fetched item without running `filterContentItems`.  Here the delivery-key
handler, invoked with an explicit ID, selects an item with no delivery key
(and, force being set, hands it to the batch mutator, which issues the full
unarchive/update/archive sequence on it). -/
theorem claim3_cex :
    jsTruthyStr (ContentItem.mk "item123" (some "L") "s" none false none
      Status.archived).deliveryKey = false ∧
    (DeliveryKey.handler
        ⟨fun _ => Except.ok ⟨"item123", some "L", "s", none, false, none, Status.archived⟩,
         fun _ => Except.error "e", fun _ => Except.error "e", fun _ => Except.error "e"⟩
        (fun a b => a == b)
        ⟨true, "0", fun _ => none, []⟩
        ⟨some "item123", none, true, true, false, "hub", none, none, none, none, none⟩).2.1 =
      some ⟨[⟨"item123", some "L", "s", none, false, none, Status.archived⟩], false⟩ ∧
    (Option.map RunResult.calls
      (DeliveryKey.handler
        ⟨fun _ => Except.ok ⟨"item123", some "L", "s", none, false, none, Status.archived⟩,
         fun _ => Except.error "e", fun _ => Except.error "e", fun _ => Except.error "e"⟩
        (fun a b => a == b)
        ⟨true, "0", fun _ => none, []⟩
        ⟨some "item123", none, true, true, false, "hub", none, none, none, none,
          none⟩).2.2).getD [] =
      [RemoteCall.unarchive "item123",
       RemoteCall.update "item123" ⟨"item123", some "L", "s", none, false, none, Status.active⟩,
       RemoteCall.archive "item123"] := by
  decide

/-- C3, amended: whenever the items are located by repository, folder, or
hub-wide enumeration (i.e. no explicit item ID is supplied), the selection
passes through `filterContentItems`, so no item lacking the target field —
no truthy delivery key for the delivery-key command, or no truthy active
flag together with a truthy last-published version for the active-flag
command — appears in the final selection.  The by-ID path returns the
fetched item unfiltered. -/
theorem claim3_field_filter :
    (∀ (client : Client) (hubId : String) (repoId folderId : Option StrArg)
       (equalsOrRegex : String → String → Bool) (name contentType : Option StrArg)
       (item : ContentItem),
       item ∈ (DeliveryKey.getContentItems client hubId none repoId folderId
         equalsOrRegex name contentType).contentItems →
       jsTruthyStr item.deliveryKey = true) ∧
    (∀ (client : Client) (hubId : String) (repoId folderId : Option StrArg)
       (equalsOrRegex : String → String → Bool) (name contentType : Option StrArg)
       (item : ContentItem),
       item ∈ (ActiveFlag.getContentItems client hubId none repoId folderId
         equalsOrRegex name contentType).contentItems →
       (item.active && jsTruthyNat item.lastPublishedVersion) = true) :=
  ⟨fun client hubId repoId folderId equalsOrRegex name contentType item h =>
    DeliveryKey.mem_getContentItems_noId_deliveryKey client hubId repoId folderId equalsOrRegex
      name contentType item h,
   fun client hubId repoId folderId equalsOrRegex name contentType item h =>
    ActiveFlag.mem_getContentItems_noId_active client hubId repoId folderId equalsOrRegex
      name contentType item h⟩

/-- Witness for C3 (amended): a concrete hub-wide enumeration whose sole
archived item carries a delivery key; the theorem applies to it. -/
theorem claim3_witness :
    jsTruthyStr (ContentItem.mk "g" (some "G") "s" (some "key") true (some 1)
      Status.archived).deliveryKey = true :=
  claim3_field_filter.1
    ⟨fun _ => Except.error "e",
     fun _ => Except.ok ⟨Except.ok
       [⟨Except.ok [⟨"g", some "G", "s", some "key", true, some 1, Status.archived⟩]⟩]⟩,
     fun _ => Except.error "e", fun _ => Except.error "e"⟩
    "hub" none none (fun a b => a == b) none none
    ⟨"g", some "G", "s", some "key", true, some 1, Status.archived⟩
    (by decide)

/-- C6: supplying both a name pattern and a content-type pattern to
`filterContentItems` yields exactly the result of supplying the name
pattern alone — the content-type filter is consulted only when no name
filter is present — in both command variants, for any matcher and any item
set. -/
theorem claim6_name_precedence :
    ∀ (equalsOrRegex : String → String → Bool) (n : StrArg) (contentType : Option StrArg)
      (contentItems : List ContentItem),
      DeliveryKey.filterContentItems equalsOrRegex (some n) contentType contentItems =
        DeliveryKey.filterContentItems equalsOrRegex (some n) none contentItems ∧
      ActiveFlag.filterContentItems equalsOrRegex (some n) contentType contentItems =
        ActiveFlag.filterContentItems equalsOrRegex (some n) none contentItems :=
  fun _ _ _ _ => ⟨rfl, rfl⟩

/-- C7: on an empty candidate set, `processItems` of either variant prints
only the nothing-found message and returns: no confirmation prompt, no log
lines, no log title, and no log file write, whatever the flags, oracles and
argv say. -/
theorem claim7_empty_selection :
    ∀ (env : DeliveryKey.Env) (envB : ActiveFlag.Env) (argv : ArgvRecord)
      (force silent : Bool) (logFile : Option String) (allContent mc ignoreError : Bool)
      (force2 silent2 : Bool) (logFile2 : Option String) (allContent2 mc2 ignoreError2 : Bool),
      DeliveryKey.processItems env
          ⟨[], force, silent, logFile, allContent, mc, ignoreError⟩ =
        ⟨[.msg "No delivery keys found in archived items."], none, none, [], none, 0, [], []⟩ ∧
      ActiveFlag.processItems envB argv
          ⟨[], force2, silent2, logFile2, allContent2, mc2, ignoreError2⟩ =
        ⟨[.msg "No active flags found in archived items."], none, none, [], none, 0, [], []⟩ :=
  fun _ _ _ _ _ _ _ _ _ _ _ _ _ _ _ => ⟨rfl, rfl⟩

/-- C1, counterexample: in the active-flag variant, an archived item that
matches the filter predicate is processed successfully (ACTION line logged,
success counter incremented) with only a `publish` call — no `unarchive`
and no re-`archive` call occurs, so the claimed
unarchive/edit/re-archive restoration does not happen in both command
variants. -/
theorem claim1_cex :
    (ActiveFlag.processItems ⟨true, "t", fun _ => none, []⟩
        ⟨none, none, true, true, false, "hub", none, none, none, none, none⟩
        ⟨[⟨"a1", some "A", "s", some "k", true, some 1, Status.archived⟩],
          true, true, none, false, false, false⟩).successCount = 1 ∧
    ActiveFlag.actionLine ⟨"a1", some "A", "s", some "k", true, some 1, Status.archived⟩ ∈
      (ActiveFlag.processItems ⟨true, "t", fun _ => none, []⟩
        ⟨none, none, true, true, false, "hub", none, none, none, none, none⟩
        ⟨[⟨"a1", some "A", "s", some "k", true, some 1, Status.archived⟩],
          true, true, none, false, false, false⟩).logLines ∧
    (ActiveFlag.processItems ⟨true, "t", fun _ => none, []⟩
        ⟨none, none, true, true, false, "hub", none, none, none, none, none⟩
        ⟨[⟨"a1", some "A", "s", some "k", true, some 1, Status.archived⟩],
          true, true, none, false, false, false⟩).calls = [RemoteCall.publish "a1"] ∧
    RemoteCall.unarchive "a1" ∉
      (ActiveFlag.processItems ⟨true, "t", fun _ => none, []⟩
        ⟨none, none, true, true, false, "hub", none, none, none, none, none⟩
        ⟨[⟨"a1", some "A", "s", some "k", true, some 1, Status.archived⟩],
          true, true, none, false, false, false⟩).calls ∧
    RemoteCall.archive "a1" ∉
      (ActiveFlag.processItems ⟨true, "t", fun _ => none, []⟩
        ⟨none, none, true, true, false, "hub", none, none, none, none, none⟩
        ⟨[⟨"a1", some "A", "s", some "k", true, some 1, Status.archived⟩],
          true, true, none, false, false, false⟩).calls := by
  decide

/-- C1, amended: in the delivery-key variant every item whose iteration does
not throw ends the run either untouched (the loop aborted before reaching
it) or re-archived with its delivery key cleared — so a successfully
processed archived item is again ARCHIVED and archived-set membership is
preserved.  In the active-flag variant the unarchive/edit/re-archive
sequence is commented out: the run leaves every item's remote state exactly
as it was (membership trivially preserved) and issues nothing but `publish`
calls. -/
theorem claim1_archived_membership :
    (∀ (env : DeliveryKey.Env) (args : ProcArgs) (j : Nat) (item : ContentItem),
       args.contentItems.get? j = some item → env.failAt j = none →
       (DeliveryKey.processItems env args).remotes.get? j = some item ∨
       (DeliveryKey.processItems env args).remotes.get? j =
         some { item with status := Status.archived, deliveryKey := none }) ∧
    (∀ (env : ActiveFlag.Env) (argv : ArgvRecord) (args : ProcArgs),
       (ActiveFlag.processItems env argv args).remotes = args.contentItems ∧
       ∀ c ∈ (ActiveFlag.processItems env argv args).calls,
         ∃ s, c = RemoteCall.publish s) := by
  constructor
  · intro env args j item hj hf
    by_cases hlen : args.contentItems.length = 0
    · left
      simpa [DeliveryKey.processItems, hlen] using hj
    · rcases Bool.eq_false_or_eq_true (!args.force && !env.answerYes) with hpr | hpr
      · left
        simpa [DeliveryKey.processItems, hlen, hpr] using hj
      · have := DeliveryKey.processLoop_remotes_of_success args.ignoreError env.failAt
          args.contentItems 0 j item hj (by simpa using hf)
        simpa [DeliveryKey.processItems, hlen, hpr] using this
  · intro env argv args
    by_cases hlen : args.contentItems.length = 0
    · constructor
      · simp [ActiveFlag.processItems, hlen]
      · intro c hc
        simp [ActiveFlag.processItems, hlen] at hc
    · rcases Bool.eq_false_or_eq_true (!args.force && !env.answerYes) with hpr | hpr
      · constructor
        · simp [ActiveFlag.processItems, hlen, hpr]
        · intro c hc
          simp [ActiveFlag.processItems, hlen, hpr] at hc
      · constructor
        · simp [ActiveFlag.processItems, hlen, hpr]
          exact ActiveFlag.processLoop_remotes env.pubFail 0 args.contentItems
        · intro c hc
          simp [ActiveFlag.processItems, hlen, hpr] at hc
          rw [ActiveFlag.processLoop_calls env.pubFail 0 args.contentItems] at hc
          rcases List.mem_map.mp hc with ⟨it, _, h⟩
          exact ⟨it.id, h.symm⟩

/-- Witness for C1 (amended): a concrete one-item delivery-key run at the
success oracle; the theorem yields the membership disjunction for it. -/
theorem claim1_witness :
    (DeliveryKey.processItems ⟨true, "t", fun _ => none, []⟩
        ⟨[⟨"w1", some "W", "s", some "k", false, none, Status.archived⟩],
          true, true, none, false, false, false⟩).remotes.get? 0 =
      some ⟨"w1", some "W", "s", some "k", false, none, Status.archived⟩ ∨
    (DeliveryKey.processItems ⟨true, "t", fun _ => none, []⟩
        ⟨[⟨"w1", some "W", "s", some "k", false, none, Status.archived⟩],
          true, true, none, false, false, false⟩).remotes.get? 0 =
      some ⟨"w1", some "W", "s", none, false, none, Status.archived⟩ :=
  claim1_archived_membership.1 ⟨true, "t", fun _ => none, []⟩
    ⟨[⟨"w1", some "W", "s", some "k", false, none, Status.archived⟩],
      true, true, none, false, false, false⟩
    0 ⟨"w1", some "W", "s", some "k", false, none, Status.archived⟩ rfl rfl

/-- C4, counterexample: the active-flag batch mutator never performs the
claimed unarchive and update calls — a confirmed one-item run issues
exactly one `publish` call. -/
theorem claim4_cex :
    (ActiveFlag.processItems ⟨true, "u", fun _ => none, []⟩
        ⟨none, none, false, false, false, "hub", none, none, none, none, none⟩
        ⟨[⟨"b1", some "B", "s", none, true, some 2, Status.archived⟩],
          true, false, none, false, false, true⟩).calls = [RemoteCall.publish "b1"] ∧
    RemoteCall.unarchive "b1" ∉
      (ActiveFlag.processItems ⟨true, "u", fun _ => none, []⟩
        ⟨none, none, false, false, false, "hub", none, none, none, none, none⟩
        ⟨[⟨"b1", some "B", "s", none, true, some 2, Status.archived⟩],
          true, false, none, false, false, true⟩).calls ∧
    (ActiveFlag.processItems ⟨true, "u", fun _ => none, []⟩
        ⟨none, none, false, false, false, "hub", none, none, none, none, none⟩
        ⟨[⟨"b1", some "B", "s", none, true, some 2, Status.archived⟩],
          true, false, none, false, false, true⟩).successCount = 1 := by
  decide

/-- C4, amended: the delivery-key batch mutator performs, per item in order,
`unarchive`, then an `update` pushing the local copy with the delivery key
cleared, then `archive`; the active-flag batch mutator performs only the
publish-queue submission (its unarchive/update/archive statements are
commented out). -/
theorem claim4_call_order :
    (∀ (env : DeliveryKey.Env) (args : ProcArgs),
       (∀ j, env.failAt j = none) → args.force = true →
       (DeliveryKey.processItems env args).calls =
         (args.contentItems.map (fun it =>
           [RemoteCall.unarchive it.id,
            RemoteCall.update it.id { it with status := Status.active, deliveryKey := none },
            RemoteCall.archive it.id])).flatten) ∧
    (∀ (env : ActiveFlag.Env) (argv : ArgvRecord) (args : ProcArgs),
       args.force = true →
       (ActiveFlag.processItems env argv args).calls =
         args.contentItems.map (fun it => RemoteCall.publish it.id)) := by
  constructor
  · intro env args hall hforce
    by_cases hlen : args.contentItems.length = 0
    · rw [List.length_eq_zero] at hlen
      simp [DeliveryKey.processItems, hlen]
    · simp [DeliveryKey.processItems, hlen, hforce,
        DeliveryKey.processLoop_calls_all_ok args.ignoreError env.failAt hall 0
          args.contentItems]
  · intro env argv args hforce
    by_cases hlen : args.contentItems.length = 0
    · rw [List.length_eq_zero] at hlen
      simp [ActiveFlag.processItems, hlen]
    · simp [ActiveFlag.processItems, hlen, hforce,
        ActiveFlag.processLoop_calls env.pubFail 0 args.contentItems]

/-- Witness for C4 (amended): a concrete one-item delivery-key run; the
theorem yields its full call trace. -/
theorem claim4_witness :
    (DeliveryKey.processItems ⟨false, "t", fun _ => none, []⟩
        ⟨[⟨"w2", some "V", "s", some "dk", false, none, Status.archived⟩],
          true, true, none, false, false, false⟩).calls =
      [RemoteCall.unarchive "w2",
       RemoteCall.update "w2" ⟨"w2", some "V", "s", none, false, none, Status.active⟩,
       RemoteCall.archive "w2"] :=
  (claim4_call_order.1 ⟨false, "t", fun _ => none, []⟩
    ⟨[⟨"w2", some "V", "s", some "dk", false, none, Status.archived⟩],
      true, true, none, false, false, false⟩
    (fun _ => rfl) rfl).trans (by decide)

/-- C2, counterexample: in the active-flag variant, with items [A, B, C]
where only B's remote call (the publish) throws and `ignoreError` is false,
the run does *not* stop at B: the success counter finishes at 3 (not 1) and
the log contains C's ACTION entry. -/
theorem claim2_cex :
    (ActiveFlag.processItems
        ⟨true, "t", fun j => if j = 1 then some "boom" else none, []⟩
        ⟨none, none, true, true, false, "hub", none, none, none, none, none⟩
        ⟨[⟨"x", some "X", "s", none, true, some 1, Status.archived⟩,
          ⟨"y", some "Y", "s", none, true, some 1, Status.archived⟩,
          ⟨"z", some "Z", "s", none, true, some 1, Status.archived⟩],
          true, true, none, false, false, false⟩).successCount = 3 ∧
    ActiveFlag.actionLine ⟨"z", some "Z", "s", none, true, some 1, Status.archived⟩ ∈
      (ActiveFlag.processItems
        ⟨true, "t", fun j => if j = 1 then some "boom" else none, []⟩
        ⟨none, none, true, true, false, "hub", none, none, none, none, none⟩
        ⟨[⟨"x", some "X", "s", none, true, some 1, Status.archived⟩,
          ⟨"y", some "Y", "s", none, true, some 1, Status.archived⟩,
          ⟨"z", some "Z", "s", none, true, some 1, Status.archived⟩],
          true, true, none, false, false, false⟩).logLines := by
  decide

/-- C2, amended (restricted to the delivery-key variant, where the per-item
mutation can actually throw to the loop's handler): on a confirmed run over
[A, B, C] where A's iteration succeeds, B's throws and `ignoreError` is
false, the log is exactly A's ACTION line followed by B's two COMMENT lines
and ERROR line — in particular no entry for C — and the success counter is
1.  In the active-flag variant a publish failure is swallowed by the inner
handler (see C8), so there the scenario yields success 3 and an entry for
every item. -/
theorem claim2_fail_fast (A B C : ContentItem) (answerYes : Bool) (ts : String)
    (f : Nat → Option (DeliveryKey.FailStep × String)) (silent : Bool)
    (logFile : Option String)
    (allContent mc : Bool) (st : DeliveryKey.FailStep) (e : String)
    (h0 : f 0 = none) (h1 : f 1 = some (st, e)) :
    (DeliveryKey.processItems ⟨answerYes, ts, f, []⟩
        ⟨[A, B, C], true, silent, logFile, allContent, mc, false⟩).successCount = 1 ∧
    (DeliveryKey.processItems ⟨answerYes, ts, f, []⟩
        ⟨[A, B, C], true, silent, logFile, allContent, mc, false⟩).logLines =
      DeliveryKey.actionLine A :: DeliveryKey.itemLog B (some (st, e)) false := by
  constructor
  · simp [DeliveryKey.processItems, DeliveryKey.processLoop, h0, h1]
  · simp [DeliveryKey.processItems, DeliveryKey.processLoop, h0, h1,
      DeliveryKey.itemLog]

/-- Witness for C2 (amended): concrete items, an update failure at index 1. -/
theorem claim2_witness :
    (DeliveryKey.processItems
        ⟨true, "t", fun j => if j = 1 then some (DeliveryKey.FailStep.update, "E") else none, []⟩
        ⟨[⟨"wa", some "A", "s", some "ka", false, none, Status.archived⟩,
          ⟨"wb", some "B", "s", some "kb", false, none, Status.archived⟩,
          ⟨"wc", some "C", "s", some "kc", false, none, Status.archived⟩],
          true, true, none, false, false, false⟩).successCount = 1 ∧
    (DeliveryKey.processItems
        ⟨true, "t", fun j => if j = 1 then some (DeliveryKey.FailStep.update, "E") else none, []⟩
        ⟨[⟨"wa", some "A", "s", some "ka", false, none, Status.archived⟩,
          ⟨"wb", some "B", "s", some "kb", false, none, Status.archived⟩,
          ⟨"wc", some "C", "s", some "kc", false, none, Status.archived⟩],
          true, true, none, false, false, false⟩).logLines =
      DeliveryKey.actionLine ⟨"wa", some "A", "s", some "ka", false, none, Status.archived⟩ ::
        DeliveryKey.itemLog ⟨"wb", some "B", "s", some "kb", false, none, Status.archived⟩
          (some (DeliveryKey.FailStep.update, "E")) false :=
  claim2_fail_fast
    ⟨"wa", some "A", "s", some "ka", false, none, Status.archived⟩
    ⟨"wb", some "B", "s", some "kb", false, none, Status.archived⟩
    ⟨"wc", some "C", "s", some "kc", false, none, Status.archived⟩
    true "t" (fun j => if j = 1 then some (DeliveryKey.FailStep.update, "E") else none)
    true none false false DeliveryKey.FailStep.update "E" rfl rfl

/-- C5, counterexample: in the active-flag variant, with items [A, B, C],
B's publish failing and `ignoreError` true, the success counter finishes at
3 (not 2) and no WARN line is produced. -/
theorem claim5_cex :
    (ActiveFlag.processItems
        ⟨true, "t", fun j => if j = 1 then some "crash" else none, []⟩
        ⟨none, none, true, true, true, "hub", none, none, none, none, none⟩
        ⟨[⟨"p", some "P", "s", none, true, some 1, Status.archived⟩,
          ⟨"q", some "Q", "s", none, true, some 1, Status.archived⟩,
          ⟨"r", some "R", "s", none, true, some 1, Status.archived⟩],
          true, true, none, false, false, true⟩).successCount = 3 ∧
    (ActiveFlag.processItems
        ⟨true, "t", fun j => if j = 1 then some "crash" else none, []⟩
        ⟨none, none, true, true, true, "hub", none, none, none, none, none⟩
        ⟨[⟨"p", some "P", "s", none, true, some 1, Status.archived⟩,
          ⟨"q", some "Q", "s", none, true, some 1, Status.archived⟩,
          ⟨"r", some "R", "s", none, true, some 1, Status.archived⟩],
          true, true, none, false, false, true⟩).logLines.all
      (fun l => match l with
        | LogLine.warn _ _ => false
        | _ => true) = true := by
  decide

/-- C5, amended (restricted to the delivery-key variant): on a confirmed run
over [A, B, C] where A's and C's iterations succeed, B's throws and
`ignoreError` is true, the log is exactly A's ACTION line, B's two COMMENT
lines and WARN line, then C's ACTION line, and the success counter is 2.
In the active-flag variant the same scenario yields success 3 and no WARN
line. -/
theorem claim5_warn_continue (A B C : ContentItem) (answerYes : Bool) (ts : String)
    (f : Nat → Option (DeliveryKey.FailStep × String)) (silent : Bool)
    (logFile : Option String)
    (allContent mc : Bool) (st : DeliveryKey.FailStep) (e : String)
    (h0 : f 0 = none) (h1 : f 1 = some (st, e)) (h2 : f 2 = none) :
    (DeliveryKey.processItems ⟨answerYes, ts, f, []⟩
        ⟨[A, B, C], true, silent, logFile, allContent, mc, true⟩).successCount = 2 ∧
    (DeliveryKey.processItems ⟨answerYes, ts, f, []⟩
        ⟨[A, B, C], true, silent, logFile, allContent, mc, true⟩).logLines =
      DeliveryKey.actionLine A ::
        (DeliveryKey.itemLog B (some (st, e)) true ++ [DeliveryKey.actionLine C]) := by
  constructor
  · simp [DeliveryKey.processItems, DeliveryKey.processLoop, h0, h1, h2]
  · simp [DeliveryKey.processItems, DeliveryKey.processLoop, h0, h1, h2,
      DeliveryKey.itemLog]

/-- Witness for C5 (amended): concrete items, an archive failure at index 1,
`ignoreError` set. -/
theorem claim5_witness :
    (DeliveryKey.processItems
        ⟨true, "t", fun j => if j = 1 then some (DeliveryKey.FailStep.archive, "F") else none, []⟩
        ⟨[⟨"va", some "A", "s", some "ka", false, none, Status.archived⟩,
          ⟨"vb", some "B", "s", some "kb", false, none, Status.archived⟩,
          ⟨"vc", some "C", "s", some "kc", false, none, Status.archived⟩],
          true, true, none, false, false, true⟩).successCount = 2 ∧
    (DeliveryKey.processItems
        ⟨true, "t", fun j => if j = 1 then some (DeliveryKey.FailStep.archive, "F") else none, []⟩
        ⟨[⟨"va", some "A", "s", some "ka", false, none, Status.archived⟩,
          ⟨"vb", some "B", "s", some "kb", false, none, Status.archived⟩,
          ⟨"vc", some "C", "s", some "kc", false, none, Status.archived⟩],
          true, true, none, false, false, true⟩).logLines =
      DeliveryKey.actionLine ⟨"va", some "A", "s", some "ka", false, none, Status.archived⟩ ::
        (DeliveryKey.itemLog ⟨"vb", some "B", "s", some "kb", false, none, Status.archived⟩
            (some (DeliveryKey.FailStep.archive, "F")) true ++
          [DeliveryKey.actionLine ⟨"vc", some "C", "s", some "kc", false, none,
            Status.archived⟩]) :=
  claim5_warn_continue
    ⟨"va", some "A", "s", some "ka", false, none, Status.archived⟩
    ⟨"vb", some "B", "s", some "kb", false, none, Status.archived⟩
    ⟨"vc", some "C", "s", some "kc", false, none, Status.archived⟩
    true "t" (fun j => if j = 1 then some (DeliveryKey.FailStep.archive, "F") else none)
    true none false false DeliveryKey.FailStep.archive "F" rfl rfl rfl

/-- C8: in the active-flag variant, a publish failure is recorded only as a
COMMENT by the inner handler; the ACTION line is still appended and the
success counter still incremented, so a confirmed run finishes with the
success counter equal to the number of selected items whatever the
publish-failure oracle says — and flipping `ignoreError` changes nothing at
all about the run. -/
theorem claim8_publish_swallowed (env : ActiveFlag.Env) (argv : ArgvRecord)
    (args : ProcArgs) (hgo : args.force = true ∨ env.answerYes = true)
    (hne : args.contentItems ≠ []) :
    (ActiveFlag.processItems env argv args).successCount = args.contentItems.length ∧
    (∀ (j : Nat) (item : ContentItem), args.contentItems.get? j = some item →
      ActiveFlag.pubLine item (env.pubFail j) ∈
          (ActiveFlag.processItems env argv args).logLines ∧
        ActiveFlag.actionLine item ∈ (ActiveFlag.processItems env argv args).logLines) ∧
    (∀ b : Bool, ActiveFlag.processItems env argv { args with ignoreError := b } =
      ActiveFlag.processItems env argv args) := by
  have hlen : ¬ args.contentItems.length = 0 := by
    simpa [List.length_eq_zero] using hne
  have hpr : (!args.force && !env.answerYes) = false := by
    rcases hgo with h | h <;> simp [h]
  refine ⟨?_, ?_, fun b => rfl⟩
  · simp [ActiveFlag.processItems, hlen, hpr,
      ActiveFlag.processLoop_count env.pubFail 0 args.contentItems]
  · intro j item hj
    have := ActiveFlag.processLoop_log_mem env.pubFail args.contentItems 0 j item hj
    simpa [ActiveFlag.processItems, hlen, hpr] using this

/-- Witness for C8: a two-item run whose first publish fails; the theorem
gives success count 2 and both items' log lines. -/
theorem claim8_witness :
    (ActiveFlag.processItems
        ⟨false, "t", fun j => if j = 0 then some "down" else none, []⟩
        ⟨none, none, true, false, true, "hub", none, none, none, none, none⟩
        ⟨[⟨"m", some "M", "s", none, true, some 1, Status.archived⟩,
          ⟨"n", some "N", "s", none, true, some 1, Status.archived⟩],
          true, true, none, false, false, false⟩).successCount = 2 ∧
    ActiveFlag.actionLine ⟨"n", some "N", "s", none, true, some 1, Status.archived⟩ ∈
      (ActiveFlag.processItems
        ⟨false, "t", fun j => if j = 0 then some "down" else none, []⟩
        ⟨none, none, true, false, true, "hub", none, none, none, none, none⟩
        ⟨[⟨"m", some "M", "s", none, true, some 1, Status.archived⟩,
          ⟨"n", some "N", "s", none, true, some 1, Status.archived⟩],
          true, true, none, false, false, false⟩).logLines := by
  have h := claim8_publish_swallowed
    ⟨false, "t", fun j => if j = 0 then some "down" else none, []⟩
    ⟨none, none, true, false, true, "hub", none, none, none, none, none⟩
    ⟨[⟨"m", some "M", "s", none, true, some 1, Status.archived⟩,
      ⟨"n", some "N", "s", none, true, some 1, Status.archived⟩],
      true, true, none, false, false, false⟩
    (Or.inl rfl) (by decide)
  exact ⟨h.1, (h.2.1 1 ⟨"n", some "N", "s", none, true, some 1, Status.archived⟩ rfl).2⟩

/-- C9: when both a truthy item ID and a truthy `--name` value are supplied,
either handler prints the conflict message and returns with the locator
never invoked and no `processItems` run — hence no prompt, no mutation and
no log file. -/
theorem claim9_id_name_conflict (client : Client)
    (equalsOrRegex : String → String → Bool) (env : DeliveryKey.Env)
    (envB : ActiveFlag.Env) (argv : ArgvRecord)
    (hid : jsTruthyStr argv.id = true) (hname : jsTruthyArg argv.name = true) :
    (ConsoleEntry.msg "Please specify either a item name or an ID - not both." ∈
        (DeliveryKey.handler client equalsOrRegex env argv).1 ∧
      (DeliveryKey.handler client equalsOrRegex env argv).2.1 = none ∧
      (DeliveryKey.handler client equalsOrRegex env argv).2.2 = none) ∧
    (ConsoleEntry.msg "Please specify either a item name or an ID - not both." ∈
        (ActiveFlag.handler client equalsOrRegex envB argv).1 ∧
      (ActiveFlag.handler client equalsOrRegex envB argv).2.1 = none ∧
      (ActiveFlag.handler client equalsOrRegex envB argv).2.2 = none) := by
  constructor
  · unfold DeliveryKey.handler
    simp [hid, hname]
  · unfold ActiveFlag.handler ActiveFlag.handlerBody
    simp [hid, hname]

/-- Witness for C9: a concrete invocation carrying both an ID and a name. -/
theorem claim9_witness :
    (ConsoleEntry.msg "Please specify either a item name or an ID - not both." ∈
        (DeliveryKey.handler
          ⟨fun _ => Except.error "e", fun _ => Except.error "e",
           fun _ => Except.error "e", fun _ => Except.error "e"⟩
          (fun a b => a == b) ⟨true, "t", fun _ => none, []⟩
          ⟨some "i9", none, false, false, false, "hub", none, none, none,
            some (StrArg.one "n9"), none⟩).1 ∧
      (DeliveryKey.handler
          ⟨fun _ => Except.error "e", fun _ => Except.error "e",
           fun _ => Except.error "e", fun _ => Except.error "e"⟩
          (fun a b => a == b) ⟨true, "t", fun _ => none, []⟩
          ⟨some "i9", none, false, false, false, "hub", none, none, none,
            some (StrArg.one "n9"), none⟩).2.1 = none ∧
      (DeliveryKey.handler
          ⟨fun _ => Except.error "e", fun _ => Except.error "e",
           fun _ => Except.error "e", fun _ => Except.error "e"⟩
          (fun a b => a == b) ⟨true, "t", fun _ => none, []⟩
          ⟨some "i9", none, false, false, false, "hub", none, none, none,
            some (StrArg.one "n9"), none⟩).2.2 = none) ∧
    (ConsoleEntry.msg "Please specify either a item name or an ID - not both." ∈
        (ActiveFlag.handler
          ⟨fun _ => Except.error "e", fun _ => Except.error "e",
           fun _ => Except.error "e", fun _ => Except.error "e"⟩
          (fun a b => a == b) ⟨true, "t", fun _ => none, []⟩
          ⟨some "i9", none, false, false, false, "hub", none, none, none,
            some (StrArg.one "n9"), none⟩).1 ∧
      (ActiveFlag.handler
          ⟨fun _ => Except.error "e", fun _ => Except.error "e",
           fun _ => Except.error "e", fun _ => Except.error "e"⟩
          (fun a b => a == b) ⟨true, "t", fun _ => none, []⟩
          ⟨some "i9", none, false, false, false, "hub", none, none, none,
            some (StrArg.one "n9"), none⟩).2.1 = none ∧
      (ActiveFlag.handler
          ⟨fun _ => Except.error "e", fun _ => Except.error "e",
           fun _ => Except.error "e", fun _ => Except.error "e"⟩
          (fun a b => a == b) ⟨true, "t", fun _ => none, []⟩
          ⟨some "i9", none, false, false, false, "hub", none, none, none,
            some (StrArg.one "n9"), none⟩).2.2 = none) :=
  claim9_id_name_conflict
    ⟨fun _ => Except.error "e", fun _ => Except.error "e",
     fun _ => Except.error "e", fun _ => Except.error "e"⟩
    (fun a b => a == b) ⟨true, "t", fun _ => none, []⟩ ⟨true, "t", fun _ => none, []⟩
    ⟨some "i9", none, false, false, false, "hub", none, none, none,
      some (StrArg.one "n9"), none⟩
    (by decide) (by decide)

/-- C10: the active-flag handler's first console entry is the dump of the
full parsed argv record together with the entire process environment —
before any warning, prompt or other output — and consequently the console
output distinguishes any two distinct environments (it depends on every
environment variable, credentials included). -/
theorem claim10_env_dump (client : Client) (equalsOrRegex : String → String → Bool)
    (env : ActiveFlag.Env) (argv : ArgvRecord) :
    (ActiveFlag.handler client equalsOrRegex env argv).1.head? =
      some (ConsoleEntry.dump argv env.processEnv) ∧
    ∀ e₁ e₂ : List (String × String), e₁ ≠ e₂ →
      (ActiveFlag.handler client equalsOrRegex { env with processEnv := e₁ } argv).1 ≠
        (ActiveFlag.handler client equalsOrRegex { env with processEnv := e₂ } argv).1 := by
  constructor
  · rfl
  · intro e₁ e₂ hne heq
    apply hne
    have h := congrArg List.head? heq
    simpa [ActiveFlag.handler] using h

/-- Witness for C10: two concrete environments differing in one variable
produce different console output for the same invocation. -/
theorem claim10_witness :
    (ActiveFlag.handler
        ⟨fun _ => Except.error "e", fun _ => Except.error "e",
         fun _ => Except.error "e", fun _ => Except.error "e"⟩
        (fun a b => a == b) ⟨true, "t", fun _ => none, [("SECRET", "x")]⟩
        ⟨none, none, false, false, false, "hub", none, none, none, none, none⟩).1 ≠
      (ActiveFlag.handler
        ⟨fun _ => Except.error "e", fun _ => Except.error "e",
         fun _ => Except.error "e", fun _ => Except.error "e"⟩
        (fun a b => a == b) ⟨true, "t", fun _ => none, []⟩
        ⟨none, none, false, false, false, "hub", none, none, none, none, none⟩).1 :=
  (claim10_env_dump
    ⟨fun _ => Except.error "e", fun _ => Except.error "e",
     fun _ => Except.error "e", fun _ => Except.error "e"⟩
    (fun a b => a == b) ⟨true, "t", fun _ => none, [("SECRET", "x")]⟩
    ⟨none, none, false, false, false, "hub", none, none, none, none, none⟩).2
    [("SECRET", "x")] [] (by decide)

end DcCli
